import Mathlib

/-!
Verification of the token-budget and schema-validation core of the
FikaTutor internal tool (src/json_converter.py, src/app.py).

Python strings are modelled as `List Char` (sequences of code points),
Python integers as `Nat`/`Int` (they are unbounded).  The user-prompt
template is modelled as a function from the two slot values
(`filename`, `text_content`) to the rendered string, which is what
`str.format` provides.

One caveat recorded here once: the source computes the safety margin as
`int(max_context_tokens * 0.05)` in double-precision floating point.  For
every context limit that fits well below 2^49 this coincides with the
exact rational floor `max_context_tokens * 5 / 100`, which is how it is
embedded below.
-/

namespace FikaTutor

/-- Embedding of `JSONConverter._estimate_tokens` (src/json_converter.py
line 81): `len(text) // 4`. -/
def _estimate_tokens (text : List Char) : Nat :=
  text.length / 4

/-- Python slicing `text[:stop]` where `stop` may be negative: a negative
stop counts from the end of the list (`max 0 (len + stop)` elements are
kept); a nonnegative stop keeps the first `stop` elements, clamped at the
length. -/
def pySlice (text : List Char) (stop : Int) : List Char :=
  if stop < 0 then text.take (text.length - stop.natAbs)
  else text.take stop.toNat

/-- The fixed truncation notice appended by `_truncate_to_token_limit`
(src/json_converter.py line 125). -/
def truncation_notice : List Char :=
  ("\n\n[Content truncated due to token limits. " ++
   "Consider processing in smaller chunks for very large documents.]").data

/-- Embedding of src/json_converter.py line 106: the 5% safety margin
`int(max_context_tokens * 0.05)` (exact rational floor, see header). -/
def safety_margin (max_context_tokens : Nat) : Nat :=
  max_context_tokens * 5 / 100

/-- Embedding of src/json_converter.py lines 99-107: the available token
budget computed inside `_truncate_to_token_limit`.  The wrapper is the
user prompt template rendered with the content slot set to the empty
string.  The result is an integer and may be negative. -/
def available_tokens (system_prompt : List Char)
    (user_prompt_template : List Char → List Char → List Char)
    (filename : List Char) (max_context_tokens max_output_tokens : Nat) : Int :=
  let system_tokens := _estimate_tokens system_prompt
  let user_wrapper := user_prompt_template filename []
  let user_wrapper_tokens := _estimate_tokens user_wrapper
  let reserved_tokens := system_tokens + user_wrapper_tokens + max_output_tokens
  (max_context_tokens : Int) - reserved_tokens - safety_margin max_context_tokens

/-- Embedding of `JSONConverter._truncate_to_token_limit`
(src/json_converter.py lines 83-125): if the text's estimated tokens fit
the available budget the text is returned unchanged, otherwise it is
sliced to `available_tokens * 4` characters (Python slice semantics) and
the fixed truncation notice is appended. -/
def _truncate_to_token_limit (text system_prompt : List Char)
    (user_prompt_template : List Char → List Char → List Char)
    (filename : List Char) (max_context_tokens max_output_tokens : Nat) : List Char :=
  let available :=
    available_tokens system_prompt user_prompt_template filename
      max_context_tokens max_output_tokens
  let text_tokens := _estimate_tokens text
  if (text_tokens : Int) ≤ available then text
  else pySlice text (available * 4) ++ truncation_notice

/-- The truncation step of `_truncate_to_token_limit`
(src/json_converter.py lines 110-125) with the available budget as an
explicit argument; the boolean records which branch was taken
(the spec's `wasTruncated`). -/
def truncateToFit (text : List Char) (available : Int) : List Char × Bool :=
  if (_estimate_tokens text : Int) ≤ available then (text, false)
  else (pySlice text (available * 4) ++ truncation_notice, true)

/-- Spec-side definition (spec.md §4.1 `computeAvailableTokens`), stated
for comparison with `available_tokens`: context limit minus
(system tokens + wrapper tokens + reserved output tokens) minus
`floor(modelContextLimit * safetyMarginFraction)`. -/
def computeAvailableTokens_spec (system_prompt user_wrapper : List Char)
    (modelContextLimit reservedOutputTokens : Nat) (safetyMarginFraction : ℚ) : Int :=
  (modelContextLimit : Int)
    - (_estimate_tokens system_prompt + _estimate_tokens user_wrapper
        + reservedOutputTokens : Nat)
    - Int.floor ((modelContextLimit : ℚ) * safetyMarginFraction)

/-! JSON values and `validate_json_structure` (src/json_converter.py
lines 10-66).  A parsed Python JSON value is an object (dict with string
keys), an array, a string, a number, a boolean or null.  Dict membership
`field in data` and indexing `data[field]` are modelled by association-list
lookup. -/

/-- A parsed JSON value, as produced by Python's `json.loads`. -/
inductive JValue where
  | obj (fields : List (String × JValue))
  | arr (items : List JValue)
  | str (s : String)
  | num (n : Int)
  | bool (b : Bool)
  | null

/-- Lookup of a key in a JSON object's field list (Python dict access;
keys in a dict are unique, so first-match lookup is faithful). -/
def jlookup (fields : List (String × JValue)) (key : String) : Option JValue :=
  match fields with
  | [] => none
  | (k, v) :: rest => if k = key then some v else jlookup rest key

/-- Python `isinstance(v, list)` on a looked-up field (a missing field is
not a list; in the validator it is only queried on fields already checked
to be present). -/
def is_array : Option JValue → Bool
  | some (JValue.arr _) => true
  | _ => false

/-- Apostrophe character, used by the validator's error messages. -/
def squo : String := String.singleton (Char.ofNat 39)

/-- A field name wrapped in apostrophes, as in the source's f-strings. -/
def quoted (s : String) : String := squo ++ s ++ squo

def missing_subject_name_msg : String :=
  "Missing " ++ quoted "subject_name" ++ " at root level"

def subject_not_object_msg : String :=
  quoted "subject_name" ++ " must be an object"

def missing_subject_field_msg (f : String) : String :=
  "Missing required field " ++ quoted f ++ " in subject_name"

def chapters_not_array_msg : String :=
  quoted "chapters" ++ " must be an array"

def chapter_not_object_msg (i : Nat) : String :=
  "Chapter " ++ Nat.repr i ++ " must be an object"

def chapter_missing_msg (i : Nat) (f : String) : String :=
  "Chapter " ++ Nat.repr i ++ " missing " ++ quoted f

def chapter_topics_not_array_msg (i : Nat) : String :=
  "Chapter " ++ Nat.repr i ++ " " ++ quoted "topics" ++ " must be an array"

def topic_not_object_msg (i j : Nat) : String :=
  "Chapter " ++ Nat.repr i ++ ", Topic " ++ Nat.repr j ++ " must be an object"

def topic_missing_msg (i j : Nat) (f : String) : String :=
  "Chapter " ++ Nat.repr i ++ ", Topic " ++ Nat.repr j ++ " missing " ++ quoted f

def topic_field_not_array_msg (i j : Nat) (f : String) : String :=
  "Chapter " ++ Nat.repr i ++ ", Topic " ++ Nat.repr j ++ " " ++ quoted f
    ++ " must be an array"

/-- Required fields of `subject_name` (src/json_converter.py line 25). -/
def required_fields : List String := ["title", "description", "chapters"]

/-- Required fields of a topic (src/json_converter.py lines 53-54). -/
def required_topic_fields : List String :=
  ["topic_id", "title", "content", "examples", "real_world_applications", "keywords"]

/-- Topic fields that must be arrays (src/json_converter.py line 60). -/
def topic_array_fields : List String :=
  ["examples", "real_world_applications", "keywords"]

/-- The loop `for field in fields: if field not in data: return field`:
first listed field missing from the object, if any. -/
def first_missing (fields : List (String × JValue)) : List String → Option String
  | [] => none
  | f :: rest =>
    if (jlookup fields f).isSome then first_missing fields rest else some f

/-- The loop `for field in fields: if not isinstance(data[field], list):
return field`: first listed field whose value is not an array, if any
(only called on objects where all listed fields are present). -/
def first_non_array (fields : List (String × JValue)) : List String → Option String
  | [] => none
  | f :: rest =>
    if is_array (jlookup fields f) then first_non_array fields rest else some f

/-- Inner loop of src/json_converter.py lines 49-62: validate the topics
of chapter `i` starting at topic index `j`, returning the first error. -/
def validate_topics (i j : Nat) : List JValue → Option String
  | [] => none
  | JValue.obj tf :: rest =>
    match first_missing tf required_topic_fields with
    | some f => some (topic_missing_msg i j f)
    | none =>
      match first_non_array tf topic_array_fields with
      | some f => some (topic_field_not_array_msg i j f)
      | none => validate_topics i (j + 1) rest
  | _ :: _ => some (topic_not_object_msg i j)

/-- Outer loop of src/json_converter.py lines 35-62: validate the
chapters starting at chapter index `i`, returning the first error. -/
def validate_chapters (i : Nat) : List JValue → Option String
  | [] => none
  | JValue.obj cf :: rest =>
    if (jlookup cf "title").isNone then some (chapter_missing_msg i "title")
    else
      match jlookup cf "topics" with
      | none => some (chapter_missing_msg i "topics")
      | some (JValue.arr topics) =>
        match validate_topics i 0 topics with
        | some e => some e
        | none => validate_chapters (i + 1) rest
      | some _ => some (chapter_topics_not_array_msg i)
  | _ :: _ => some (chapter_not_object_msg i)

/-- Embedding of `validate_json_structure` (src/json_converter.py lines
10-66): returns the first schema violation in document order, or `none`
for a valid structure.  The `try`/`except` wrapper of the source is
unreachable (the body only uses membership-checked dict access), and the
embedding is total by construction. -/
def validate_json_structure (data : JValue) : Option String :=
  match data with
  | JValue.obj root =>
    match jlookup root "subject_name" with
    | none => some missing_subject_name_msg
    | some (JValue.obj sf) =>
      match first_missing sf required_fields with
      | some f => some (missing_subject_field_msg f)
      | none =>
        match jlookup sf "chapters" with
        | some (JValue.arr chapters) => validate_chapters 0 chapters
        | _ => some chapters_not_array_msg
    | some _ => some subject_not_object_msg
  | _ => some missing_subject_name_msg

/-- Schema conformance as described in spec.md §3 / §4.2: root object
with a `subject_name` object carrying `title`, `description` and a
`chapters` array; every chapter an object with `title` and a `topics`
array; every topic an object with all six required fields, the last
three of which are arrays. -/
def topic_conformant (t : JValue) : Bool :=
  match t with
  | JValue.obj tf =>
    required_topic_fields.all (fun f => (jlookup tf f).isSome)
      && topic_array_fields.all (fun f => is_array (jlookup tf f))
  | _ => false

def chapter_conformant (c : JValue) : Bool :=
  match c with
  | JValue.obj cf =>
    (jlookup cf "title").isSome
      && (match jlookup cf "topics" with
          | some (JValue.arr topics) => topics.all topic_conformant
          | _ => false)
  | _ => false

def conformant (d : JValue) : Bool :=
  match d with
  | JValue.obj root =>
    match jlookup root "subject_name" with
    | some (JValue.obj sf) =>
      (jlookup sf "title").isSome && (jlookup sf "description").isSome
        && (match jlookup sf "chapters" with
            | some (JValue.arr chapters) => chapters.all chapter_conformant
            | _ => false)
    | _ => false
  | _ => false

/-- Python `isinstance(d, dict)`. -/
def is_object : JValue → Bool
  | JValue.obj _ => true
  | _ => false

/-! Output-size tier selection (src/json_converter.py lines 142-149) and
the response-handling tail of `convert_to_json` (lines 252-269). -/

/-- Embedding of src/json_converter.py lines 142-149: the environment is
the optional value of the single variable `MAX_OUTPUT_TOKENS`
(`os.getenv` with per-tier defaults 16000 / 8000 / 4000); the thresholds
300000 and 100000 are literal constants in the source. -/
def select_max_tokens (max_output_tokens_env : Option Nat) (content_length : Nat) : Nat :=
  if content_length > 300000 then max_output_tokens_env.getD 16000
  else if content_length > 100000 then max_output_tokens_env.getD 8000
  else max_output_tokens_env.getD 4000

/-- Embedding of src/json_converter.py lines 252-269: the outcome of
`json.loads` on the response text is the input (`Except.error` is a
`JSONDecodeError` message).  On a parse failure a `ValueError` is raised;
on success the parsed document is validated, a failure is only logged
(`logger.warning`) and the document is returned regardless. -/
def convert_parse_result (parsed : Except String JValue) : Except String JValue :=
  match parsed with
  | Except.error e => Except.error ("Invalid JSON response from OpenAI: " ++ e)
  | Except.ok json_output =>
    match validate_json_structure json_output with
    | some _ => Except.ok json_output
    | none => Except.ok json_output

/-! Per-file batch processing of the `/upload` route (src/app.py lines
80-132).  Each uploaded file carries the outcome of its externally
performed steps: text extraction (`file_parser.parse_file`, which may
raise) and JSON conversion (`json_converter.convert_to_json`, which may
raise); both kinds of exception are caught per file inside the loop. -/

/-- Outcome of an external per-file step: a value, or a raised exception
message (caught by the per-file `except` at src/app.py lines 126-132). -/
inductive StepOutcome (α : Type) where
  | ok (val : α)
  | raised (msg : String)

/-- One file of a batch upload: filename, lowercased extension
(`os.path.splitext(...)[1].lower()`), and the outcomes of its extraction
and conversion steps as performed by the external collaborators. -/
structure UploadFile where
  filename : String
  extension : String
  extract : StepOutcome String
  convert : StepOutcome JValue

/-- A per-file result entry appended to `results` (src/app.py). -/
inductive FileResult where
  | success (filename : String) (data : JValue)
  | failure (filename : String) (err : String)

/-- Allowed upload extensions (src/app.py line 75). -/
def allowed_extensions : List String := [".pdf", ".doc", ".docx", ".ppt", ".pptx"]

def unsupported_type_msg : String :=
  "Unsupported file type. Allowed types: .pdf, .doc, .docx, .ppt, .pptx"

def insufficient_text_msg : String :=
  "Could not extract sufficient text from the file. " ++
  "Please ensure the file contains readable content."

def processing_error_msg (e : String) : String :=
  "Error processing file: " ++ e

/-- Python whitespace stripped by `str.strip()` (ASCII subset). -/
def py_whitespace (c : Char) : Bool :=
  c = ' ' || c = Char.ofNat 9 || c = Char.ofNat 10 || c = Char.ofNat 13
    || c = Char.ofNat 11 || c = Char.ofNat 12

/-- Python `text.strip()`: leading and trailing whitespace removed. -/
def py_strip (s : List Char) : List Char :=
  ((s.dropWhile py_whitespace).reverse.dropWhile py_whitespace).reverse

/-- The body of the per-file loop (src/app.py lines 80-132): extension
check, extraction (exceptions caught), the emptiness / minimum-length
check `not extracted_text or len(extracted_text.strip()) < 50`, then
conversion (exceptions caught).  Exactly one result is produced. -/
def process_file (f : UploadFile) : FileResult :=
  if f.extension ∈ allowed_extensions then
    match f.extract with
    | StepOutcome.raised e => FileResult.failure f.filename (processing_error_msg e)
    | StepOutcome.ok text =>
      if text = "" ∨ (py_strip text.data).length < 50 then
        FileResult.failure f.filename insufficient_text_msg
      else
        match f.convert with
        | StepOutcome.ok j => FileResult.success f.filename j
        | StepOutcome.raised e => FileResult.failure f.filename (processing_error_msg e)
  else FileResult.failure f.filename unsupported_type_msg

/-- The whole `for file in files` loop of src/app.py lines 80-132: one
result entry per file, each computed independently of the others. -/
def upload_results (files : List UploadFile) : List FileResult :=
  files.map process_file

/-- A minimal fully conformant document: one chapter, one topic, all six
topic fields present with empty arrays. -/
def minimal_doc : JValue :=
  JValue.obj [("subject_name", JValue.obj
    [("title", JValue.str "T"),
     ("description", JValue.str "D"),
     ("chapters", JValue.arr
       [JValue.obj
         [("title", JValue.str "C1"),
          ("topics", JValue.arr
            [JValue.obj
              [("topic_id", JValue.str "topic_1"),
               ("title", JValue.str "A topic"),
               ("content", JValue.str "Some content"),
               ("examples", JValue.arr []),
               ("real_world_applications", JValue.arr []),
               ("keywords", JValue.arr [])]])]])])]

/-- A document whose second chapter's first topic lacks `topic_id`. -/
def bad_topic_doc : JValue :=
  JValue.obj [("subject_name", JValue.obj
    [("title", JValue.str "T"),
     ("description", JValue.str "D"),
     ("chapters", JValue.arr
       [JValue.obj
         [("title", JValue.str "C1"),
          ("topics", JValue.arr [])],
        JValue.obj
         [("title", JValue.str "C2"),
          ("topics", JValue.arr
            [JValue.obj
              [("title", JValue.str "A topic"),
               ("content", JValue.str "Some content"),
               ("examples", JValue.arr []),
               ("real_world_applications", JValue.arr []),
               ("keywords", JValue.arr [])]])]])])]

/-- A string of 60 non-whitespace characters (comfortably above the
50-character extraction minimum of src/app.py line 104). -/
def sixty_x : String := String.mk (List.replicate 60 'x')

/-! Helper lemmas. -/

lemma int_floor_nat_div (a b : Nat) : Int.floor ((a : ℚ) / (b : ℚ)) = (a / b : Nat) := by
  rw [← Int.natCast_floor_eq_floor (by positivity), Nat.floor_div_eq_div]

lemma floor_five_percent (n : Nat) :
    Int.floor ((n : ℚ) * (5 / 100)) = (n * 5 / 100 : Nat) := by
  have h : (n : ℚ) * (5 / 100) = ((n * 5 : Nat) : ℚ) / ((100 : Nat) : ℚ) := by
    push_cast; ring
  rw [h, int_floor_nat_div]

lemma truncate_refines_truncateToFit (text system_prompt : List Char)
    (user_prompt_template : List Char → List Char → List Char)
    (filename : List Char) (max_context_tokens max_output_tokens : Nat) :
    _truncate_to_token_limit text system_prompt user_prompt_template filename
        max_context_tokens max_output_tokens
      = (truncateToFit text
          (available_tokens system_prompt user_prompt_template filename
            max_context_tokens max_output_tokens)).1 := by
  simp only [_truncate_to_token_limit, truncateToFit]
  split <;> rfl

/-- C6: for every string s, `estimateTokens s = floor (len s / 4)` (token
count approximated as character count divided by four, rounded down), and
`estimateTokens ""` is 0. -/
theorem estimate_tokens_spec :
    ∀ s : List Char,
      (_estimate_tokens s : Int) = Int.floor ((s.length : ℚ) / 4)
        ∧ _estimate_tokens "".data = 0 := by
  intro s
  refine ⟨?_, rfl⟩
  rw [show ((4 : ℚ)) = ((4 : Nat) : ℚ) by norm_num, int_floor_nat_div]
  rfl

/-- C3: the available token budget computed by `_truncate_to_token_limit`
equals the model context limit minus (estimated system-prompt tokens +
estimated tokens of the template rendered with empty content slot +
reserved output tokens) minus `floor(modelContextLimit *
safetyMarginFraction)`, with the safety-margin fraction the code's fixed
5%, for every system prompt, template, filename and budget. -/
theorem available_tokens_eq_spec :
    ∀ (system_prompt : List Char) (template : List Char → List Char → List Char)
      (filename : List Char) (limit out : Nat),
      available_tokens system_prompt template filename limit out
        = computeAvailableTokens_spec system_prompt (template filename []) limit out
            (5 / 100) := by
  intro sys tmpl fn limit out
  simp only [available_tokens, computeAvailableTokens_spec, safety_margin,
    floor_five_percent]

/-- C2 (code bug): with zero context limit and one reserved output token
the available budget is -1; the source then slices with the negative
count `text[:-4]`, which in Python keeps all but the last four characters
of the text instead of keeping none, so the truncated body still contains
characters of the original text. -/
theorem truncate_negative_available_keeps_text :
    available_tokens [] (fun _ _ => []) [] 0 1 = -1
      ∧ _truncate_to_token_limit "aaaaaaaa".data [] (fun _ _ => []) [] 0 1
          = "aaaa".data ++ truncation_notice
      ∧ _truncate_to_token_limit "aaaaaaaa".data [] (fun _ _ => []) [] 0 1
          ≠ truncation_notice := by
  refine ⟨by decide, by decide, by decide⟩

/-- C5 counterexample: the three tier sizes are defaults of the single
environment variable MAX_OUTPUT_TOKENS, so no configuration makes the
medium tier 8001 while the default tier stays 4000 — the reservation
sizes cannot be overridden independently. -/
theorem select_max_tokens_not_independent :
    ¬ ∃ env : Option Nat,
        select_max_tokens env 150000 = 8001 ∧ select_max_tokens env 50000 = 4000 := by
  rintro ⟨env, h1, h2⟩
  cases env with
  | none => simp [select_max_tokens] at h1
  | some v =>
    simp [select_max_tokens] at h1 h2
    omega

/-- C5 (amended): input over 300000 characters requests the large
reservation (default 16000), over 100000 the medium (default 8000),
otherwise the default (4000); the thresholds are the hardcoded constants
300000 and 100000, and setting MAX_OUTPUT_TOKENS overrides all three
tiers to the same value. -/
theorem select_max_tokens_tiers :
    ∀ (env : Option Nat) (n : Nat),
      (300000 < n → select_max_tokens env n = env.getD 16000)
        ∧ (100000 < n → n ≤ 300000 → select_max_tokens env n = env.getD 8000)
        ∧ (n ≤ 100000 → select_max_tokens env n = env.getD 4000) := by
  intro env n
  refine ⟨fun h => ?_, fun h1 h2 => ?_, fun h => ?_⟩ <;>
    simp only [select_max_tokens] <;>
    split <;> first | rfl | omega | (split <;> first | rfl | omega)

/-- Witness for C5's amended theorem at concrete inputs. -/
theorem select_max_tokens_tiers_witness :
    (100000 < 200001 ∧ 200001 ≤ 300000 ∧ select_max_tokens none 200001 = 8000)
      ∧ (300000 < 300001 ∧ select_max_tokens (some 500) 300001 = 500)
      ∧ (50 ≤ 100000 ∧ select_max_tokens none 50 = 4000) := by
  refine ⟨⟨by norm_num, by norm_num, ?_⟩, ⟨by norm_num, ?_⟩, ⟨by norm_num, ?_⟩⟩
  · exact (select_max_tokens_tiers none 200001).2.1 (by norm_num) (by norm_num)
  · exact ((select_max_tokens_tiers (some 500) 300001).1 (by norm_num)).trans rfl
  · exact (select_max_tokens_tiers none 50).2.2 (by norm_num)

/-- C8: a response that parses as JSON but fails schema validation is
still returned to the caller; the validation failure is never raised. -/
theorem warn_dont_reject :
    ∀ (j : JValue) (e : String),
      validate_json_structure j = some e
        → convert_parse_result (Except.ok j) = Except.ok j := by
  intro j e h
  simp [convert_parse_result, h]

/-- Witness for C8: the empty object fails validation yet is returned. -/
theorem warn_dont_reject_witness :
    validate_json_structure (JValue.obj []) = some missing_subject_name_msg
      ∧ convert_parse_result (Except.ok (JValue.obj [])) = Except.ok (JValue.obj []) :=
  ⟨rfl, warn_dont_reject (JValue.obj []) missing_subject_name_msg rfl⟩

/-- C10: `validate_json_structure` is total — on every JSON value it
returns either no error or an error message — and a non-object root is
reported with the missing-subject_name error rather than crashing. -/
theorem validate_json_structure_total :
    ∀ d : JValue,
      (validate_json_structure d = none ∨ ∃ msg, validate_json_structure d = some msg)
        ∧ (is_object d = false
            → validate_json_structure d = some missing_subject_name_msg) := by
  intro d
  constructor
  · cases h : validate_json_structure d with
    | none => exact Or.inl rfl
    | some m => exact Or.inr ⟨m, rfl⟩
  · intro h
    cases d with
    | obj fields => simp [is_object] at h
    | arr items => rfl
    | str s => rfl
    | num n => rfl
    | bool b => rfl
    | null => rfl

/-- Witness for C10 at the non-object root `null`. -/
theorem validate_json_structure_total_witness :
    is_object JValue.null = false
      ∧ validate_json_structure JValue.null = some missing_subject_name_msg :=
  ⟨rfl, (validate_json_structure_total JValue.null).2 rfl⟩

/-- C1: with a nonnegative available budget, text whose estimated tokens
fit is returned unchanged and untruncated; otherwise the result is the
first `available*4` characters followed by the fixed truncation notice,
so its length is exactly `available*4` plus the notice length, and it is
marked truncated. -/
theorem truncateToFit_correct :
    ∀ (text : List Char) (available : Int), 0 ≤ available →
      ((_estimate_tokens text : Int) ≤ available
          → truncateToFit text available = (text, false))
        ∧ (available < (_estimate_tokens text : Int)
          → truncateToFit text available
              = (text.take (available.toNat * 4) ++ truncation_notice, true)
            ∧ (truncateToFit text available).1.length
                = available.toNat * 4 + truncation_notice.length) := by
  intro text available h0
  constructor
  · intro hle
    simp [truncateToFit, hle]
  · intro hlt
    have hnle : ¬ (_estimate_tokens text : Int) ≤ available := not_le.mpr hlt
    have hslice : pySlice text (available * 4) = text.take (available.toNat * 4) := by
      rw [pySlice, if_neg (by omega)]
      congr 1
      omega
    have hlen_nat : available.toNat < _estimate_tokens text := by
      have h' : available < ((_estimate_tokens text : Nat) : Int) := hlt
      omega
    have hchars : available.toNat * 4 ≤ text.length := by
      have := hlen_nat
      unfold _estimate_tokens at this
      omega
    refine ⟨?_, ?_⟩
    · simp [truncateToFit, hnle, hslice]
    · simp [truncateToFit, hnle, hslice, List.length_append, List.length_take]
      omega

/-- Witness for C1: one fitting and one truncated concrete instance. -/
theorem truncateToFit_correct_witness :
    ((0 : Int) ≤ 8 ∧ (_estimate_tokens "aaaaaaaa".data : Int) ≤ 8
        ∧ truncateToFit "aaaaaaaa".data 8 = ("aaaaaaaa".data, false))
      ∧ ((0 : Int) ≤ 1 ∧ (1 : Int) < (_estimate_tokens "aaaaaaaa".data : Int)
        ∧ truncateToFit "aaaaaaaa".data 1
            = ("aaaa".data ++ truncation_notice, true)) := by
  refine ⟨⟨by norm_num, by decide, ?_⟩, ⟨by norm_num, by decide, ?_⟩⟩
  · exact (truncateToFit_correct "aaaaaaaa".data 8 (by norm_num)).1 (by decide)
  · exact (((truncateToFit_correct "aaaaaaaa".data 1 (by norm_num)).2
      (by decide)).1).trans (by decide)

/-- C7: the available-token computation is monotonically decreasing in
the reserved output tokens and in the safety-margin fraction, holding
all other inputs fixed; correspondingly the source's `available_tokens`
is monotonically decreasing in `max_output_tokens`. -/
theorem computeAvailableTokens_antitone :
    ∀ (system_prompt : List Char) (template : List Char → List Char → List Char)
      (filename user_wrapper : List Char) (limit r1 r2 : Nat) (f1 f2 : ℚ),
      r1 ≤ r2 → f1 ≤ f2 →
      computeAvailableTokens_spec system_prompt user_wrapper limit r2 f1
          ≤ computeAvailableTokens_spec system_prompt user_wrapper limit r1 f1
        ∧ computeAvailableTokens_spec system_prompt user_wrapper limit r1 f2
            ≤ computeAvailableTokens_spec system_prompt user_wrapper limit r1 f1
        ∧ available_tokens system_prompt template filename limit r2
            ≤ available_tokens system_prompt template filename limit r1 := by
  intro sys tmpl fn w limit r1 r2 f1 f2 hr hf
  refine ⟨?_, ?_, ?_⟩
  · unfold computeAvailableTokens_spec
    apply sub_le_sub_right
    apply sub_le_sub_left
    exact_mod_cast Nat.add_le_add_left hr _
  · unfold computeAvailableTokens_spec
    apply sub_le_sub_left
    exact Int.floor_le_floor (mul_le_mul_of_nonneg_left hf (by positivity))
  · simp only [available_tokens]
    apply sub_le_sub_right
    apply sub_le_sub_left
    exact_mod_cast Nat.add_le_add_left hr _

/-- Witness for C7 at concrete budgets. -/
theorem computeAvailableTokens_antitone_witness :
    (1 : Nat) ≤ 2 ∧ (0 : ℚ) ≤ 1
      ∧ computeAvailableTokens_spec [] [] 100 2 0
          ≤ computeAvailableTokens_spec [] [] 100 1 0
      ∧ computeAvailableTokens_spec [] [] 100 1 1
          ≤ computeAvailableTokens_spec [] [] 100 1 0
      ∧ available_tokens [] (fun _ _ => []) [] 100 2
          ≤ available_tokens [] (fun _ _ => []) [] 100 1 := by
  have h := computeAvailableTokens_antitone [] (fun _ _ => []) [] [] 100 1 2 0 1
    (by norm_num) (by norm_num)
  exact ⟨by norm_num, by norm_num, h.1, h.2.1, h.2.2⟩

/-- C9: every file of a batch yields exactly one result entry, each
entry depends only on its own file, and in a three-file batch whose
second file extracts to the empty string the middle entry is that file's
input error while the outer files keep their own outcomes. -/
theorem batch_isolation :
    ∀ files : List UploadFile,
      (upload_results files).length = files.length
        ∧ (∀ i : Nat, (upload_results files)[i]? = (files[i]?).map process_file)
        ∧ (∀ (f1 f3 : UploadFile) (name2 ext2 : String) (conv2 : StepOutcome JValue),
            ext2 ∈ allowed_extensions →
            upload_results [f1, ⟨name2, ext2, StepOutcome.ok "", conv2⟩, f3]
              = [process_file f1,
                 FileResult.failure name2 insufficient_text_msg,
                 process_file f3]) := by
  intro files
  refine ⟨by simp [upload_results], fun i => by simp [upload_results], ?_⟩
  intro f1 f3 name2 ext2 conv2 hext
  simp only [upload_results, List.map_cons, List.map_nil]
  congr 1
  · congr 1
    simp [process_file, hext]

/-- Witness for C9: a concrete three-file batch with an empty middle
extraction; the outer files reach success and failure independently. -/
theorem batch_isolation_witness :
    (".pdf" : String) ∈ allowed_extensions
      ∧ upload_results
          [⟨"a.pdf", ".pdf", StepOutcome.ok sixty_x, StepOutcome.ok JValue.null⟩,
           ⟨"b.pdf", ".pdf", StepOutcome.ok "", StepOutcome.ok JValue.null⟩,
           ⟨"c.pdf", ".pdf", StepOutcome.ok sixty_x, StepOutcome.raised "boom"⟩]
        = [FileResult.success "a.pdf" JValue.null,
           FileResult.failure "b.pdf" insufficient_text_msg,
           FileResult.failure "c.pdf" (processing_error_msg "boom")] := by
  refine ⟨by decide, ?_⟩
  have h := (batch_isolation
      [⟨"a.pdf", ".pdf", StepOutcome.ok sixty_x, StepOutcome.ok JValue.null⟩,
       ⟨"b.pdf", ".pdf", StepOutcome.ok "", StepOutcome.ok JValue.null⟩,
       ⟨"c.pdf", ".pdf", StepOutcome.ok sixty_x, StepOutcome.raised "boom"⟩]).2.2
    ⟨"a.pdf", ".pdf", StepOutcome.ok sixty_x, StepOutcome.ok JValue.null⟩
    ⟨"c.pdf", ".pdf", StepOutcome.ok sixty_x, StepOutcome.raised "boom"⟩
    "b.pdf" ".pdf" (StepOutcome.ok JValue.null) (by decide)
  exact h.trans (by rfl)

lemma first_missing_eq_none (fields : List (String × JValue)) :
    ∀ l : List String,
      first_missing fields l = none
        ↔ l.all (fun f => (jlookup fields f).isSome) = true := by
  intro l
  induction l with
  | nil => simp [first_missing]
  | cons f rest ih =>
    by_cases h : (jlookup fields f).isSome
    · simp [first_missing, h, ih]
    · simp [first_missing, h]

lemma first_non_array_eq_none (fields : List (String × JValue)) :
    ∀ l : List String,
      first_non_array fields l = none
        ↔ l.all (fun f => is_array (jlookup fields f)) = true := by
  intro l
  induction l with
  | nil => simp [first_non_array]
  | cons f rest ih =>
    by_cases h : is_array (jlookup fields f)
    · simp [first_non_array, h, ih]
    · simp [first_non_array, h]

lemma validate_topics_eq_none (i : Nat) :
    ∀ (j : Nat) (ts : List JValue),
      validate_topics i j ts = none ↔ ts.all topic_conformant = true := by
  intro j ts
  induction ts generalizing j with
  | nil => simp [validate_topics]
  | cons t rest ih =>
    cases t with
    | obj tf =>
      cases hm : first_missing tf required_topic_fields with
      | some f =>
        have hreq : required_topic_fields.all (fun f => (jlookup tf f).isSome) = false := by
          cases hca : required_topic_fields.all (fun f => (jlookup tf f).isSome)
          · rfl
          · exact absurd ((first_missing_eq_none tf required_topic_fields).mpr hca)
              (by simp [hm])
        simp [validate_topics, hm, topic_conformant, hreq]
      | none =>
        have hreq : required_topic_fields.all (fun f => (jlookup tf f).isSome) = true :=
          (first_missing_eq_none tf required_topic_fields).mp hm
        cases ha : first_non_array tf topic_array_fields with
        | some f =>
          have harr : topic_array_fields.all (fun f => is_array (jlookup tf f)) = false := by
            cases hca : topic_array_fields.all (fun f => is_array (jlookup tf f))
            · rfl
            · exact absurd ((first_non_array_eq_none tf topic_array_fields).mpr hca)
                (by simp [ha])
          simp [validate_topics, hm, ha, topic_conformant, harr]
        | none =>
          have harr : topic_array_fields.all (fun f => is_array (jlookup tf f)) = true :=
            (first_non_array_eq_none tf topic_array_fields).mp ha
          simp [validate_topics, hm, ha, topic_conformant, hreq, harr, ih]
    | arr items => simp [validate_topics, topic_conformant]
    | str s => simp [validate_topics, topic_conformant]
    | num n => simp [validate_topics, topic_conformant]
    | bool b => simp [validate_topics, topic_conformant]
    | null => simp [validate_topics, topic_conformant]

lemma validate_chapters_eq_none :
    ∀ (i : Nat) (cs : List JValue),
      validate_chapters i cs = none ↔ cs.all chapter_conformant = true := by
  intro i cs
  induction cs generalizing i with
  | nil => simp [validate_chapters]
  | cons c rest ih =>
    cases c with
    | obj cf =>
      cases ht : jlookup cf "title" with
      | none => simp [validate_chapters, ht, chapter_conformant]
      | some tv =>
        cases htop : jlookup cf "topics" with
        | none => simp [validate_chapters, ht, htop, chapter_conformant]
        | some pv =>
          cases pv with
          | arr topics =>
            cases hvt : validate_topics i 0 topics with
            | some e =>
              have hta : topics.all topic_conformant = false := by
                cases hca : topics.all topic_conformant
                · rfl
                · exact absurd ((validate_topics_eq_none i 0 topics).mpr hca)
                    (by simp [hvt])
              simp [validate_chapters, ht, htop, hvt, chapter_conformant, hta]
            | none =>
              have hta : topics.all topic_conformant = true :=
                (validate_topics_eq_none i 0 topics).mp hvt
              simp [validate_chapters, ht, htop, hvt, chapter_conformant, hta, ih]
          | obj f2 => simp [validate_chapters, ht, htop, chapter_conformant]
          | str s => simp [validate_chapters, ht, htop, chapter_conformant]
          | num n => simp [validate_chapters, ht, htop, chapter_conformant]
          | bool b => simp [validate_chapters, ht, htop, chapter_conformant]
          | null => simp [validate_chapters, ht, htop, chapter_conformant]
    | arr items => simp [validate_chapters, chapter_conformant]
    | str s => simp [validate_chapters, chapter_conformant]
    | num n => simp [validate_chapters, chapter_conformant]
    | bool b => simp [validate_chapters, chapter_conformant]
    | null => simp [validate_chapters, chapter_conformant]

lemma validate_topics_append (i : Nat) :
    ∀ (j : Nat) (pre rest : List JValue),
      pre.all topic_conformant = true
        → validate_topics i j (pre ++ rest) = validate_topics i (j + pre.length) rest := by
  intro j pre rest
  induction pre generalizing j with
  | nil => intro _; simp
  | cons t pre' ih =>
    intro hpre
    rw [List.all_cons, Bool.and_eq_true] at hpre
    obtain ⟨htc, hpre'⟩ := hpre
    cases t with
    | obj tf =>
      simp only [topic_conformant, Bool.and_eq_true] at htc
      have hm : first_missing tf required_topic_fields = none :=
        (first_missing_eq_none tf required_topic_fields).mpr htc.1
      have ha : first_non_array tf topic_array_fields = none :=
        (first_non_array_eq_none tf topic_array_fields).mpr htc.2
      rw [List.cons_append]
      simp only [validate_topics, hm, ha]
      rw [ih (j + 1) hpre']
      congr 1
      simp [List.length_cons]
      omega
    | arr items => simp [topic_conformant] at htc
    | str s => simp [topic_conformant] at htc
    | num n => simp [topic_conformant] at htc
    | bool b => simp [topic_conformant] at htc
    | null => simp [topic_conformant] at htc

lemma validate_chapters_append :
    ∀ (i : Nat) (pre rest : List JValue),
      pre.all chapter_conformant = true
        → validate_chapters i (pre ++ rest) = validate_chapters (i + pre.length) rest := by
  intro i pre rest
  induction pre generalizing i with
  | nil => intro _; simp
  | cons c pre' ih =>
    intro hpre
    rw [List.all_cons, Bool.and_eq_true] at hpre
    obtain ⟨hcc, hpre'⟩ := hpre
    cases c with
    | obj cf =>
      simp only [chapter_conformant, Bool.and_eq_true] at hcc
      obtain ⟨ht, hmt⟩ := hcc
      cases hti : jlookup cf "title" with
      | none => rw [hti] at ht; simp at ht
      | some tv =>
        cases htop : jlookup cf "topics" with
        | none => rw [htop] at hmt; simp at hmt
        | some pv =>
          cases pv with
          | arr topics =>
            rw [htop] at hmt
            have hvt : validate_topics i 0 topics = none :=
              (validate_topics_eq_none i 0 topics).mpr hmt
            rw [List.cons_append]
            simp only [validate_chapters, hti, htop, hvt, Option.isNone_some,
              Bool.false_eq_true, if_false]
            rw [ih (i + 1) hpre']
            congr 1
            simp [List.length_cons]
            omega
          | obj f2 => rw [htop] at hmt; simp at hmt
          | str s => rw [htop] at hmt; simp at hmt
          | num n => rw [htop] at hmt; simp at hmt
          | bool b => rw [htop] at hmt; simp at hmt
          | null => rw [htop] at hmt; simp at hmt
    | arr items => simp [chapter_conformant] at hcc
    | str s => simp [chapter_conformant] at hcc
    | num n => simp [chapter_conformant] at hcc
    | bool b => simp [chapter_conformant] at hcc
    | null => simp [chapter_conformant] at hcc

/-- C4: `validate_json_structure` accepts exactly the schema-conformant
documents; a document missing `subject_name` (including any non-object
root) yields the missing-subject_name error; and the traversal is
depth-first fail-fast — conformant topic and chapter prefixes are
skipped, so the reported violation is the first one in document order,
with its chapter and topic indices. -/
theorem validate_json_structure_correct :
    ∀ d : JValue,
      (validate_json_structure d = none ↔ conformant d = true)
        ∧ (∀ root, d = JValue.obj root → jlookup root "subject_name" = none
            → validate_json_structure d = some missing_subject_name_msg)
        ∧ (∀ i j pre rest, pre.all topic_conformant = true
            → validate_topics i j (pre ++ rest) = validate_topics i (j + pre.length) rest)
        ∧ (∀ i pre rest, pre.all chapter_conformant = true
            → validate_chapters i (pre ++ rest)
                = validate_chapters (i + pre.length) rest) := by
  intro d
  refine ⟨?_, ?_, fun i j pre rest h => validate_topics_append i j pre rest h,
    fun i pre rest h => validate_chapters_append i pre rest h⟩
  · cases d with
    | obj root =>
      cases hs : jlookup root "subject_name" with
      | none => simp [validate_json_structure, hs, conformant]
      | some subject =>
        cases subject with
        | obj sf =>
          cases ht : jlookup sf "title" with
          | none =>
            have hm : first_missing sf required_fields = some "title" := by
              simp [first_missing, required_fields, ht]
            simp [validate_json_structure, hs, hm, conformant, ht]
          | some tv =>
            cases hd : jlookup sf "description" with
            | none =>
              have hm : first_missing sf required_fields = some "description" := by
                simp [first_missing, required_fields, ht, hd]
              simp [validate_json_structure, hs, hm, conformant, ht, hd]
            | some dv =>
              cases hc : jlookup sf "chapters" with
              | none =>
                have hm : first_missing sf required_fields = some "chapters" := by
                  simp [first_missing, required_fields, ht, hd, hc]
                simp [validate_json_structure, hs, hm, conformant, ht, hd, hc]
              | some cv =>
                have hm : first_missing sf required_fields = none := by
                  simp [first_missing, required_fields, ht, hd, hc]
                cases cv with
                | arr chapters =>
                  simp [validate_json_structure, hs, hm, hc, conformant, ht, hd,
                    validate_chapters_eq_none]
                | obj l => simp [validate_json_structure, hs, hm, hc, conformant, ht, hd]
                | str s => simp [validate_json_structure, hs, hm, hc, conformant, ht, hd]
                | num n => simp [validate_json_structure, hs, hm, hc, conformant, ht, hd]
                | bool b => simp [validate_json_structure, hs, hm, hc, conformant, ht, hd]
                | null => simp [validate_json_structure, hs, hm, hc, conformant, ht, hd]
        | arr l => simp [validate_json_structure, hs, conformant]
        | str s => simp [validate_json_structure, hs, conformant]
        | num n => simp [validate_json_structure, hs, conformant]
        | bool b => simp [validate_json_structure, hs, conformant]
        | null => simp [validate_json_structure, hs, conformant]
    | arr items => simp [validate_json_structure, conformant]
    | str s => simp [validate_json_structure, conformant]
    | num n => simp [validate_json_structure, conformant]
    | bool b => simp [validate_json_structure, conformant]
    | null => simp [validate_json_structure, conformant]
  · rintro root rfl hnone
    simp [validate_json_structure, hnone]

/-- Witness for C4: the minimal conformant document validates cleanly,
the empty object reports the missing subject_name, and a document whose
chapter 1, topic 0 lacks topic_id reports exactly that field at those
indices. -/
theorem validate_json_structure_correct_witness :
    conformant minimal_doc = true
      ∧ validate_json_structure minimal_doc = none
      ∧ validate_json_structure (JValue.obj []) = some missing_subject_name_msg
      ∧ validate_json_structure bad_topic_doc = some (topic_missing_msg 1 0 "topic_id") := by
  refine ⟨by decide, ?_, ?_, by decide⟩
  · exact (validate_json_structure_correct minimal_doc).1.mpr (by decide)
  · exact (validate_json_structure_correct (JValue.obj [])).2.1 [] rfl rfl

end FikaTutor
